import Mathlib

/-!
Formal model of the chart-assistant frontend's real-time session
orchestrator (frontend/src: App.js, services/api.js, components/FileUpload.js,
components/ChartDisplay.js, components/ChatInterface.js).

The JavaScript runtime values flowing through the orchestrator are modelled
by the inductive type `JVal` (JSON values plus `undefined`).  Property access,
truthiness, string coercion and `JSON.parse`/field lookup follow the
JavaScript semantics on the fragment the code exercises.  Exceptions
(TypeError on property access of null/undefined, SyntaxError from
`JSON.parse`, a rejected promise from axios) are modelled with `Except`.

The React state triple (`messages`, `currentChart`, `uploadedFile`) is the
`SessionState` structure; every `setXxx` call of the source is an explicit
`StoreMut` mutation, applied in the order the source dispatches them.  React
functional updaters are evaluated eagerly at dispatch, which agrees with the
source because no handler reads the state it updates (all updates are of the
form `setMessages(prev => [...prev, m])`).
-/

/-- JavaScript runtime values reachable in this program: the JSON values
plus `undefined`.  Objects are association lists of fields. -/
inductive JVal where
  | undefined : JVal
  | jnull : JVal
  | jbool : Bool → JVal
  | jnum : Int → JVal
  | jstr : String → JVal
  | jarr : List JVal → JVal
  | jobj : List (String × JVal) → JVal
  deriving Repr

/-- Whether a value is `null` or `undefined` (property access throws). -/
def isNullish : JVal → Bool
  | .jnull => true
  | .undefined => true
  | _ => false

/-- Strict equality `v === s` against a string literal: true exactly when
`v` is a string with the same characters. -/
def strictEqStr (v : JVal) (s : String) : Bool :=
  match v with
  | .jstr t => t == s
  | _ => false

/-- Exceptions that the modelled code can raise. -/
inductive JSError where
  | typeError : JSError
  | syntaxError : JSError
  | rejected : JSError
  deriving Repr, DecidableEq

/-- Whether an `Except` computation ended in an exception. -/
def exceptIsError : Except JSError α → Bool
  | .error _ => true
  | .ok _ => false

/-- Field lookup in an object's association list.  JavaScript object literals
and `JSON.parse` give the last occurrence of a duplicated key precedence. -/
def lookupField : List (String × JVal) → String → JVal
  | [], _ => .undefined
  | (k, v) :: rest, key =>
    match lookupField rest key with
    | .undefined => if k = key then v else .undefined
    | r => r

/-- Property access `v.k` as the source performs it: a TypeError on `null`
or `undefined`, the field on an object, `undefined` on every other value. -/
def getField : JVal → String → Except JSError JVal
  | .undefined, _ => .error .typeError
  | .jnull, _ => .error .typeError
  | .jobj fs, k => .ok (lookupField fs k)
  | _, _ => .ok .undefined

/-- Property access that cannot throw; used only where the source has already
established the receiver is not nullish (short-circuit guards, `?.`). -/
def getFieldD : JVal → String → JVal
  | .jobj fs, k => lookupField fs k
  | _, _ => .undefined

/-- JavaScript truthiness of a value. -/
def truthy : JVal → Bool
  | .undefined => false
  | .jnull => false
  | .jbool b => b
  | .jnum n => n != 0
  | .jstr s => s != ""
  | .jarr _ => true
  | .jobj _ => true

/-- Optional chaining `v?.k`: `undefined` when the receiver is nullish,
ordinary (non-throwing) access otherwise. -/
def optChain (v : JVal) (k : String) : JVal :=
  match v with
  | .undefined => .undefined
  | .jnull => .undefined
  | w => getFieldD w k

/-- JavaScript `a || b`: the left value when truthy, otherwise the right. -/
def jsOr (a b : JVal) : JVal :=
  if truthy a then a else b

/-- String coercion `String(v)` as used by template literals and by
`JSON.parse` on a non-string argument.  Array elements are joined with
commas, nullish elements becoming empty, as `Array.prototype.toString`
does. -/
def jsToString : JVal → String
  | .undefined => "undefined"
  | .jnull => "null"
  | .jbool true => "true"
  | .jbool false => "false"
  | .jnum n => toString n
  | .jstr s => s
  | .jobj _ => "[object Object]"
  | .jarr xs =>
    String.intercalate "," (xs.attach.map fun p =>
      if isNullish p.1 then "" else jsToString p.1)
decreasing_by
  have := List.sizeOf_lt_of_mem p.2
  simp only [JVal.jarr.sizeOf_spec]
  omega

/-- Whitespace skipping for the JSON reader. -/
def skipWs : List Char → List Char
  | [] => []
  | c :: rest =>
    if c = ' ' ∨ c = '\t' ∨ c = '\n' ∨ c = '\r' then skipWs rest else c :: rest

/-- Longest digit prefix of the input, and the remainder. -/
def takeDigits : List Char → List Char × List Char
  | [] => ([], [])
  | c :: rest =>
    if c.isDigit then
      let (ds, r) := takeDigits rest
      (c :: ds, r)
    else ([], c :: rest)

/-- Numeric value of a digit sequence. -/
def digitsToNat (ds : List Char) : Nat :=
  ds.foldl (fun acc c => acc * 10 + (c.toNat - 48)) 0

/-- Body of a JSON string literal (opening quote already consumed): the
characters up to the closing quote and the remainder.  Escape sequences are
outside the modelled fragment and make the read fail. -/
def strChars : List Char → Option (List Char × List Char)
  | [] => none
  | c :: rest =>
    if c = '"' then some ([], rest)
    else if c = '\\' then none
    else
      match strChars rest with
      | some (s, r) => some (c :: s, r)
      | none => none

mutual

/-- Fuel-indexed JSON value reader, modelling the JavaScript built-in
`JSON.parse` on the fragment this program exchanges: null, booleans,
integers, escape-free strings, arrays and objects.  A payload outside the
fragment is reported as unparseable. -/
def parseVal : Nat → List Char → Option (JVal × List Char)
  | 0, _ => none
  | fuel + 1, cs =>
    match skipWs cs with
    | [] => none
    | c :: rest =>
      if c = 'n' then
        match rest with
        | 'u' :: 'l' :: 'l' :: r => some (.jnull, r)
        | _ => none
      else if c = 't' then
        match rest with
        | 'r' :: 'u' :: 'e' :: r => some (.jbool true, r)
        | _ => none
      else if c = 'f' then
        match rest with
        | 'a' :: 'l' :: 's' :: 'e' :: r => some (.jbool false, r)
        | _ => none
      else if c = '"' then
        match strChars rest with
        | some (s, r) => some (.jstr (String.mk s), r)
        | none => none
      else if c = '-' then
        match takeDigits rest with
        | ([], _) => none
        | (ds, r) => some (.jnum (-(digitsToNat ds : Int)), r)
      else if c.isDigit then
        match takeDigits (c :: rest) with
        | (ds, r) => some (.jnum (digitsToNat ds), r)
      else if c = '[' then
        match skipWs rest with
        | ']' :: r => some (.jarr [], r)
        | cs2 =>
          match parseElems fuel cs2 with
          | some (xs, r) => some (.jarr xs, r)
          | none => none
      else if c = '\x7b' then
        match skipWs rest with
        | '\x7d' :: r => some (.jobj [], r)
        | cs2 =>
          match parseMembers fuel cs2 with
          | some (fs, r) => some (.jobj fs, r)
          | none => none
      else none

/-- Comma-separated array elements up to the closing bracket. -/
def parseElems : Nat → List Char → Option (List JVal × List Char)
  | 0, _ => none
  | fuel + 1, cs =>
    match parseVal fuel cs with
    | none => none
    | some (v, r) =>
      match skipWs r with
      | ',' :: r2 =>
        match parseElems fuel r2 with
        | some (xs, r3) => some (v :: xs, r3)
        | none => none
      | ']' :: r2 => some ([v], r2)
      | _ => none

/-- Comma-separated object members up to the closing brace. -/
def parseMembers : Nat → List Char → Option (List (String × JVal) × List Char)
  | 0, _ => none
  | fuel + 1, cs =>
    match skipWs cs with
    | '"' :: rest =>
      match strChars rest with
      | none => none
      | some (k, r) =>
        match skipWs r with
        | ':' :: r2 =>
          match parseVal fuel r2 with
          | none => none
          | some (v, r3) =>
            match skipWs r3 with
            | ',' :: r4 =>
              match parseMembers fuel r4 with
              | some (fs, r5) => some ((String.mk k, v) :: fs, r5)
              | none => none
            | '\x7d' :: r4 => some ([(String.mk k, v)], r4)
            | _ => none
        | _ => none
    | _ => none

end

/-- Top-level `JSON.parse`: reads one value and requires only whitespace to
remain; `none` models the thrown SyntaxError. -/
def jsonParse (s : String) : Option JVal :=
  match parseVal (s.length + 1) s.data with
  | some (v, r) => if skipWs r = [] then some v else none
  | none => none

/-- One turn of the conversation, as built by the source: `id` and
`timestamp` both come from the clock tick `Date.now()` at which the handler
ran, `sender` is `"user"` or `"assistant"`, `text` is whatever value the
handler supplied. -/
structure Message where
  id : Nat
  sender : String
  text : JVal
  timestamp : Nat
  deriving Repr

/-- The message object each handler appends: both `id: Date.now()` and
`timestamp: new Date()` taken at the current tick. -/
def mkMessage (now : Nat) (sender : String) (text : JVal) : Message :=
  { id := now, sender := sender, text := text, timestamp := now }

/-- The React state of `App`: `messages`, `currentChart`, `uploadedFile`,
each created by `useState([])` respectively `useState(null)`. -/
structure SessionState where
  messages : List Message
  currentChart : JVal
  uploadedFile : JVal
  deriving Repr

/-- Session state at mount: no messages, both chart and file `null`. -/
def initialState : SessionState :=
  { messages := [], currentChart := .jnull, uploadedFile := .jnull }

/-- One store mutation, i.e. one `setMessages`/`setCurrentChart`/
`setUploadedFile` dispatch of the source. -/
inductive StoreMut where
  | appendMsg : Message → StoreMut
  | setChart : JVal → StoreMut
  | setFile : JVal → StoreMut
  deriving Repr

/-- Apply one mutation to the session state. -/
def applyMut (st : SessionState) : StoreMut → SessionState
  | .appendMsg m => { st with messages := st.messages ++ [m] }
  | .setChart v => { st with currentChart := v }
  | .setFile v => { st with uploadedFile := v }

/-- Apply a list of mutations in dispatch order. -/
def applyMuts (st : SessionState) (ms : List StoreMut) : SessionState :=
  ms.foldl applyMut st

/-- The messages appended by a mutation list, in order. -/
def msgsOf (ms : List StoreMut) : List Message :=
  ms.filterMap fun
    | .appendMsg m => some m
    | _ => none

/-- Store mutations dispatched by the `onMessage` callback of `App` for an
already-parsed inbound value `data`: when `data.type === 'response'`, append
an assistant message with `data.data.response` as text and, if
`data.data.chart_data` is truthy, replace the current chart with it; any
other `type` is ignored.  Exceptions mirror the source's unguarded property
accesses. -/
def onMessage (now : Nat) (data : JVal) : Except JSError (List StoreMut) :=
  match getField data "type" with
  | .error e => .error e
  | .ok t =>
    if strictEqStr t "response" then
      match getField data "data" with
      | .error e => .error e
      | .ok response =>
        match getField response "response" with
        | .error e => .error e
        | .ok txt =>
          match getField response "chart_data" with
          | .error e => .error e
          | .ok cd =>
            .ok ([.appendMsg (mkMessage now "assistant" txt)] ++
              (if truthy cd then [.setChart cd] else []))
    else .ok []

/-- The `ws.onmessage` handler of `ApiService.connectWebSocket`:
`JSON.parse(event.data)` — with no surrounding try/catch — followed by the
`onMessage` callback.  A wire payload that does not parse raises a
SyntaxError that nothing in the source catches. -/
def wsOnMessage (now : Nat) (wire : String) : Except JSError (List StoreMut) :=
  match jsonParse wire with
  | none => .error .syntaxError
  | some data => onMessage now data

/-- Event-loop-level processing of one inbound frame: an exception escaping
the handler is swallowed by the browser event loop, leaving the store
exactly as it was. -/
def stepWire (now : Nat) (st : SessionState) (wire : String) : SessionState :=
  match wsOnMessage now wire with
  | .ok ms => applyMuts st ms
  | .error _ => st

/-- Processing of a sequence of inbound frames, each tagged with the clock
tick at which it is handled. -/
def processWires (st : SessionState) (l : List (Nat × String)) : SessionState :=
  l.foldl (fun s p => stepWire p.1 s p.2) st

/-- The plot handed to the chart library: the `data` and `layout` fields of
the decoded payload. -/
structure RenderedChart where
  data : JVal
  layout : JVal
  deriving Repr

/-- Decoding step of `ChartDisplay`: `JSON.parse(chartData.chart_data)`
inside try/catch, then the `data`/`layout` field reads.  `none` models both
a parse failure and the TypeError raised when the parsed value is `null`
(both are caught and make the component return `null`). -/
def decodeChart (s : String) : Option RenderedChart :=
  match jsonParse s with
  | none => none
  | some .jnull => none
  | some v => some { data := getFieldD v "data", layout := getFieldD v "layout" }

/-- The `ChartDisplay` component: returns nothing when `chartData` is falsy
or `chartData.chart_data` is falsy, otherwise decodes the (string-coerced)
`chart_data` field and renders the plot; a decoding failure again yields
nothing. -/
def ChartDisplay (chartData : JVal) : Option RenderedChart :=
  if truthy chartData = false then none
  else if truthy (getFieldD chartData "chart_data") = false then none
  else decodeChart (jsToString (getFieldD chartData "chart_data"))

/-- Readiness of the underlying WebSocket, as in the DOM constants. -/
inductive ReadyState where
  | CONNECTING
  | OPEN
  | CLOSING
  | CLOSED
  deriving Repr, DecidableEq

/-- One observable step of `handleSendMessage`/`ApiService.sendMessage`:
a store append, a frame transmitted on the socket, or the
`console.error('WebSocket未连接')` fallback. -/
inductive SendStep where
  | append : Message → SendStep
  | transmit : JVal → SendStep
  | logNotConnected : SendStep
  deriving Repr

/-- `ApiService.sendMessage`: transmit `JSON.stringify({message})` when a
socket exists and its `readyState` is OPEN, otherwise only log an error.
`none` for the socket argument models `this.ws === null`. -/
def sendSteps (ws : Option ReadyState) (m : String) : List SendStep :=
  match ws with
  | some .OPEN => [.transmit (.jobj [("message", .jstr m)])]
  | _ => [.logNotConnected]

/-- `handleSendMessage` of `App`: first dispatch the user-message append,
then hand the text to `ApiService.sendMessage`.  The returned list is the
ordered trace of observable steps. -/
def handleSendMessage (now : Nat) (ws : Option ReadyState) (m : String) :
    List SendStep :=
  .append (mkMessage now "user" (.jstr m)) :: sendSteps ws m

/-- Effect of one send-trace step on the session state (transmissions and
logging do not touch the store). -/
def applySendStep (st : SessionState) : SendStep → SessionState
  | .append m => applyMut st (.appendMsg m)
  | _ => st

/-- State reached after a user sends the chat message `m`. -/
def stepUserSend (now : Nat) (ws : Option ReadyState) (m : String)
    (st : SessionState) : SessionState :=
  (handleSendMessage now ws m).foldl applySendStep st

/-- Whether a step of the send trace is a transmission on the channel. -/
def isTransmit : SendStep → Bool
  | .transmit _ => true
  | _ => false

/-- Failure raised by `ApiService.uploadFile` when the POST rejects; the
human-readable message is logged by the service before rethrowing. -/
structure UploadError where
  msg : String
  deriving Repr, DecidableEq

/-- Transient antd notification shown by `FileUpload` via `message.success`
or `message.error`; notifications live outside the session store. -/
inductive Notice where
  | success : String → Notice
  | error : String → Notice
  deriving Repr, DecidableEq

/-- The confirmation text synthesized by `handleUploadSuccess` from the
acknowledgement's `load_result` value:
`result.load_result?.response || '数据'` interpolated into the template. -/
def uploadConfirmText (loadResult : JVal) : String :=
  "文件上传成功！我已经加载了文件，其中包含 " ++
    jsToString (jsOr (optChain loadResult "response") (.jstr "数据")) ++
    "。你可以让我生成各种图表了。"

/-- `handleUploadSuccess` of `App`, as store mutations in dispatch order:
`setUploadedFile(result.file_path)` first, then the append of the
synthesized assistant confirmation. -/
def handleUploadSuccess (now : Nat) (result : JVal) :
    Except JSError (List StoreMut) :=
  match getField result "file_path" with
  | .error e => .error e
  | .ok fp =>
    match getField result "load_result" with
    | .error e => .error e
    | .ok lr =>
      .ok [.setFile fp,
        .appendMsg (mkMessage now "assistant" (.jstr (uploadConfirmText lr)))]

/-- The `customRequest` of `FileUpload`, given the settled result of
`apiService.uploadFile(file)`: on a truthy `result.success` show the
success notification and run `handleUploadSuccess`; on a falsy flag show
`message.error(result.message)`; any exception (a rejected upload, or a
property access throwing) lands in the catch, which shows
`message.error('上传失败')`.  Returns the store mutations and the
notifications, each in dispatch order. -/
def customRequestRun (now : Nat) (res : Except UploadError JVal) :
    List StoreMut × List Notice :=
  match
    (match res with
     | .error _ => .error .rejected
     | .ok result =>
       match getField result "success" with
       | .error e => .error e
       | .ok s =>
         if truthy s then
           match handleUploadSuccess now result with
           | .error e => .error e
           | .ok ms => .ok (ms, [Notice.success "文件上传成功"])
         else
           match getField result "message" with
           | .error e => .error e
           | .ok m => .ok ([], [Notice.error (jsToString m)])
     : Except JSError (List StoreMut × List Notice)) with
  | .ok r => r
  | .error _ => ([], [Notice.error "上传失败"])

/-- State and notifications after an upload attempt settles. -/
def customRequest (now : Nat) (st : SessionState)
    (res : Except UploadError JVal) : SessionState × List Notice :=
  (applyMuts st (customRequestRun now res).1, (customRequestRun now res).2)

/-- Whether `customRequest` takes its success branch: the result arrived
and its `success` field is truthy (`getFieldD` agrees with the throwing
access here, because a nullish result throws into the catch, which is also
a failure). -/
def uploadSucceeded (res : Except UploadError JVal) : Bool :=
  match res with
  | .error _ => false
  | .ok v => truthy (getFieldD v "success")

/-- Phase of the socket currently held by `ApiService` (the `readyState`
projection relevant to the lifecycle handlers). -/
inductive ChanPhase where
  | CONNECTING
  | OPEN
  | CLOSED
  deriving Repr, DecidableEq

/-- Transport-channel state: the socket phase and whether a reconnection
`setTimeout` is pending.  The source keeps no disconnect flag at all, which
is exactly what claim C1 probes. -/
structure ChanState where
  phase : ChanPhase
  timerPending : Bool
  deriving Repr, DecidableEq

/-- State just after the initial `connectWebSocket` call of the mount
effect: a fresh socket, no timer. -/
def chanInit : ChanState :=
  { phase := .CONNECTING, timerPending := false }

/-- Externally observable events driving the channel lifecycle. -/
inductive ChanEvent where
  | wsOpen
  | wsClose
  | timerFire
  | disconnectCall
  deriving Repr, DecidableEq

/-- Observable actions the channel code performs. -/
inductive ChanAct where
  | scheduleReconnect : Nat → ChanAct
  | newConnection : ChanAct
  | closeSocket : ChanAct
  deriving Repr, DecidableEq

/-- One lifecycle step of `ApiService`, with the actions it performs;
`none` marks an event the platform cannot deliver in that state.
`onopen` only logs; `onclose` unconditionally runs
`setTimeout(() => this.connectWebSocket(onMessage), 5000)`; the timer
firing runs `connectWebSocket`, creating a new socket; `disconnect()` runs
`this.ws.close()`, whose close event is delivered as a later `wsClose`. -/
def chanStep : ChanState → ChanEvent → Option (ChanState × List ChanAct)
  | st, .wsOpen =>
    if st.phase = .CONNECTING then some ({ st with phase := .OPEN }, []) else none
  | st, .wsClose =>
    if st.phase = .CLOSED then none
    else some ({ st with phase := .CLOSED, timerPending := true },
      [.scheduleReconnect 5000])
  | st, .timerFire =>
    if st.timerPending then
      some ({ phase := .CONNECTING, timerPending := false }, [.newConnection])
    else none
  | st, .disconnectCall => some (st, [.closeSocket])

/-- Run the channel over an event trace, collecting the actions performed
at each step; `none` if some event was not deliverable. -/
def runChan : ChanState → List ChanEvent → Option (List (List ChanAct))
  | _, [] => some []
  | st, e :: es =>
    match chanStep st e with
    | none => none
    | some (st2, as) => (runChan st2 es).map (as :: ·)

/-- One orchestrator-driven action of the session: the user sending a chat
message, an upload attempt settling, or an inbound frame arriving; each
carries the clock tick at which its handler runs. -/
inductive OAction where
  | userSend : Nat → Option ReadyState → String → OAction
  | uploadResult : Nat → Except UploadError JVal → OAction
  | inbound : Nat → String → OAction

/-- Apply one action to the session state. -/
def stepAction (st : SessionState) : OAction → SessionState
  | .userSend now ws m => stepUserSend now ws m st
  | .uploadResult now res => (customRequest now st res).1
  | .inbound now w => stepWire now st w

/-- Apply a sequence of actions in order. -/
def processActions (st : SessionState) (acts : List OAction) : SessionState :=
  acts.foldl stepAction st

/-- The store mutations an action dispatches (independent of the state,
because every updater in the source is purely functional). -/
def mutsOf : OAction → List StoreMut
  | .userSend now _ m => [.appendMsg (mkMessage now "user" (.jstr m))]
  | .uploadResult now res => (customRequestRun now res).1
  | .inbound now w =>
    match wsOnMessage now w with
    | .ok ms => ms
    | .error _ => []

/-- The messages an action appends. -/
def producedMsgs (a : OAction) : List Message :=
  msgsOf (mutsOf a)

/-- The clock tick at which an action's handler runs. -/
def actionNow : OAction → Nat
  | .userSend now _ _ => now
  | .uploadResult now _ => now
  | .inbound now _ => now

/-- A "response" inbound event whose payload carries text `t` and the chart
string `c`, in the wire shape of section 6 of the spec. -/
def respEvent (t : JVal) (c : String) : JVal :=
  .jobj [("type", .jstr "response"),
         ("data", .jobj [("response", t), ("chart_data", .jstr c)])]

/-- Event-loop-level processing of one already-parsed inbound value. -/
def stepData (now : Nat) (st : SessionState) (data : JVal) : SessionState :=
  match onMessage now data with
  | .ok ms => applyMuts st ms
  | .error _ => st

theorem applyMuts_messages (ms : List StoreMut) (st : SessionState) :
    (applyMuts st ms).messages = st.messages ++ msgsOf ms := by
  induction ms generalizing st with
  | nil => simp [applyMuts, msgsOf]
  | cons m rest ih =>
    have hstep : applyMuts st (m :: rest) = applyMuts (applyMut st m) rest := rfl
    rw [hstep, ih]
    cases m <;> simp [applyMut, msgsOf]

theorem stepAction_muts (st : SessionState) (a : OAction) :
    stepAction st a = applyMuts st (mutsOf a) := by
  cases a with
  | userSend now ws m =>
    cases ws with
    | none => rfl
    | some rs => cases rs <;> rfl
  | uploadResult now res => rfl
  | inbound now w =>
    show stepWire now st w = _
    cases h : wsOnMessage now w with
    | ok ms => simp [stepWire, mutsOf, h]
    | error e => simp [stepWire, mutsOf, h, applyMuts]

theorem produced_shape (a : OAction) :
    producedMsgs a = [] ∨
      ∃ m, producedMsgs a = [m] ∧ m.id = actionNow a := by
  cases a with
  | userSend now ws m => exact .inr ⟨_, rfl, rfl⟩
  | uploadResult now res =>
    cases res with
    | error e => exact .inl rfl
    | ok v =>
      cases v with
      | jobj fs =>
        cases h : truthy (lookupField fs "success") with
        | false =>
          refine .inl ?_
          simp [producedMsgs, mutsOf, customRequestRun, getField, h, msgsOf]
        | true =>
          refine .inr ⟨mkMessage now "assistant"
            (.jstr (uploadConfirmText (lookupField fs "load_result"))), ?_, rfl⟩
          simp [producedMsgs, mutsOf, customRequestRun, getField, h,
            handleUploadSuccess, msgsOf]
      | undefined => exact .inl rfl
      | jnull => exact .inl rfl
      | jbool b => exact .inl rfl
      | jnum n => exact .inl rfl
      | jstr s => exact .inl rfl
      | jarr xs => exact .inl rfl
  | inbound now w =>
    cases hp : jsonParse w with
    | none =>
      refine .inl ?_
      simp [producedMsgs, mutsOf, wsOnMessage, hp, msgsOf]
    | some d =>
      cases d with
      | undefined => exact .inl (by simp [producedMsgs, mutsOf, wsOnMessage, hp, onMessage, getField, msgsOf])
      | jnull => exact .inl (by simp [producedMsgs, mutsOf, wsOnMessage, hp, onMessage, getField, msgsOf])
      | jbool b => exact .inl (by simp [producedMsgs, mutsOf, wsOnMessage, hp, onMessage, getField, strictEqStr, msgsOf])
      | jnum n => exact .inl (by simp [producedMsgs, mutsOf, wsOnMessage, hp, onMessage, getField, strictEqStr, msgsOf])
      | jstr s => exact .inl (by simp [producedMsgs, mutsOf, wsOnMessage, hp, onMessage, getField, strictEqStr, msgsOf])
      | jarr xs => exact .inl (by simp [producedMsgs, mutsOf, wsOnMessage, hp, onMessage, getField, strictEqStr, msgsOf])
      | jobj fs =>
        cases ht : strictEqStr (lookupField fs "type") "response" with
        | false =>
          refine .inl ?_
          simp [producedMsgs, mutsOf, wsOnMessage, hp, onMessage, getField, ht, msgsOf]
        | true =>
          cases hr : lookupField fs "data" with
          | undefined =>
            refine .inl ?_
            simp [producedMsgs, mutsOf, wsOnMessage, hp, onMessage, getField, ht, hr, msgsOf]
          | jnull =>
            refine .inl ?_
            simp [producedMsgs, mutsOf, wsOnMessage, hp, onMessage, getField, ht, hr, msgsOf]
          | jbool b =>
            refine .inr ⟨mkMessage now "assistant" .undefined, ?_, rfl⟩
            simp [producedMsgs, mutsOf, wsOnMessage, hp, onMessage, getField, ht, hr, msgsOf,
              List.filterMap_append]
          | jnum n =>
            refine .inr ⟨mkMessage now "assistant" .undefined, ?_, rfl⟩
            simp [producedMsgs, mutsOf, wsOnMessage, hp, onMessage, getField, ht, hr, msgsOf,
              List.filterMap_append]
          | jstr s =>
            refine .inr ⟨mkMessage now "assistant" .undefined, ?_, rfl⟩
            simp [producedMsgs, mutsOf, wsOnMessage, hp, onMessage, getField, ht, hr, msgsOf,
              List.filterMap_append]
          | jarr xs =>
            refine .inr ⟨mkMessage now "assistant" .undefined, ?_, rfl⟩
            simp [producedMsgs, mutsOf, wsOnMessage, hp, onMessage, getField, ht, hr, msgsOf,
              List.filterMap_append]
          | jobj fs2 =>
            refine .inr ⟨mkMessage now "assistant" (lookupField fs2 "response"), ?_, rfl⟩
            simp [producedMsgs, mutsOf, wsOnMessage, hp, onMessage, getField, ht, hr, msgsOf,
              List.filterMap_append]

theorem processActions_messages (acts : List OAction) (st : SessionState) :
    (processActions st acts).messages =
      st.messages ++ (acts.map producedMsgs).flatten := by
  induction acts generalizing st with
  | nil => simp [processActions]
  | cons a rest ih =>
    have hstep : processActions st (a :: rest) = processActions (stepAction st a) rest := rfl
    rw [hstep, ih, stepAction_muts, applyMuts_messages]
    simp [producedMsgs]

theorem produced_flatten_length (acts : List OAction) :
    ((acts.map producedMsgs).flatten).length =
      acts.countP (fun a => !(producedMsgs a).isEmpty) := by
  induction acts with
  | nil => rfl
  | cons a rest ih =>
    simp only [List.map_cons, List.flatten_cons, List.length_append, ih,
      List.countP_cons]
    rcases produced_shape a with h | ⟨m, h, _⟩ <;> simp [h] <;> omega

theorem produced_ids_sublist (acts : List OAction) :
    List.Sublist ((acts.map producedMsgs).flatten.map (fun m => m.id))
      (acts.map actionNow) := by
  induction acts with
  | nil => simp
  | cons a rest ih =>
    simp only [List.map_cons, List.flatten_cons, List.map_append]
    rcases produced_shape a with h | ⟨m, h, hid⟩
    · rw [h]
      simpa using ih.cons (actionNow a)
    · rw [h]
      simpa [hid] using ih.cons₂ (actionNow a)

/-- C9: over any sequence of orchestrator-driven actions the conversation is
append-only — the prior messages survive unchanged, in place and in order,
with the newly produced messages appended after them — and, starting from
the empty session, the final length is exactly the number of actions that
produce a message. -/
theorem c9_append_only (st : SessionState) (acts : List OAction) :
    (processActions st acts).messages =
      st.messages ++ (acts.map producedMsgs).flatten ∧
    (processActions initialState acts).messages.length =
      acts.countP (fun a => !(producedMsgs a).isEmpty) := by
  refine ⟨processActions_messages acts st, ?_⟩
  rw [processActions_messages]
  simp only [initialState, List.nil_append]
  exact produced_flatten_length acts

/-- C10 counterexample: two chat messages sent within the same clock tick
(`Date.now()` returning 100 twice) get the same id, so ids of a reachable
conversation are not unique. -/
theorem c10_counterexample :
    ¬ ((processActions initialState
        [.userSend 100 none "plot a", .userSend 100 none "plot b"]).messages.map
          (fun m => m.id)).Nodup := by
  have h : (processActions initialState
      [.userSend 100 none "plot a", .userSend 100 none "plot b"]).messages.map
        (fun m => m.id) = [100, 100] := rfl
  rw [h]
  decide

/-- C10 (amended): message ids are the `Date.now()` ticks of their actions;
when the handlers run at strictly increasing clock ticks, the ids of the
resulting conversation are strictly increasing, and in particular pairwise
distinct. -/
theorem c10_ids_unique (acts : List OAction)
    (h : (acts.map actionNow).Pairwise (· < ·)) :
    ((processActions initialState acts).messages.map (fun m => m.id)).Pairwise (· < ·) ∧
    ((processActions initialState acts).messages.map (fun m => m.id)).Nodup := by
  have hids : (processActions initialState acts).messages.map (fun m => m.id) =
      (acts.map producedMsgs).flatten.map (fun m => m.id) := by
    rw [processActions_messages]
    simp [initialState]
  rw [hids]
  have hp : ((acts.map producedMsgs).flatten.map (fun m => m.id)).Pairwise (· < ·) :=
    h.sublist (produced_ids_sublist acts)
  exact ⟨hp, hp.imp Nat.ne_of_lt⟩

/-- C10 witness: two sends at ticks 1 and 2 satisfy the strictly-increasing
hypothesis and yield distinct, increasing ids. -/
theorem c10_ids_unique_witness :
    (([OAction.userSend 1 none "a", OAction.userSend 2 none "b"].map
        actionNow).Pairwise (· < ·)) ∧
    (((processActions initialState
        [OAction.userSend 1 none "a", OAction.userSend 2 none "b"]).messages.map
          (fun m => m.id)).Pairwise (· < ·) ∧
     ((processActions initialState
        [OAction.userSend 1 none "a", OAction.userSend 2 none "b"]).messages.map
          (fun m => m.id)).Nodup) :=
  ⟨by decide, c10_ids_unique _ (by decide)⟩

theorem truthy_jstr {s : String} (h : s ≠ "") : truthy (.jstr s) = true := by
  simp [truthy, bne_iff_ne, h]

theorem stepData_respEvent (now : Nat) (st : SessionState) (t : JVal)
    {c : String} (hc : c ≠ "") :
    stepData now st (respEvent t c) =
      { st with
          messages := st.messages ++ [mkMessage now "assistant" t],
          currentChart := .jstr c } := by
  have hred : onMessage now (respEvent t c) =
      .ok ([.appendMsg (mkMessage now "assistant" t)] ++
        (if truthy (.jstr c) then [.setChart (.jstr c)] else [])) := rfl
  show (match onMessage now (respEvent t c) with
        | .ok ms => applyMuts st ms
        | .error _ => st) = _
  rw [hred, truthy_jstr hc]
  rfl

/-- C1: the code schedules and performs a reconnection attempt after
`disconnect()`.  Running the channel from the mounted state through the
trace "disconnect() is called; the close event of the socket it closed
fires; the 5-second timer elapses" shows `onclose` scheduling a 5000 ms
reconnect and the timer opening a fresh connection, both strictly after the
`disconnect()` call. -/
theorem c1_reconnect_after_disconnect :
    runChan chanInit [.disconnectCall, .wsClose, .timerFire] =
      some [[.closeSocket], [.scheduleReconnect 5000], [.newConnection]] := rfl

/-- C2 counterexample: the payload "not json" makes
`JSON.parse(event.data)` in the unguarded `onmessage` handler raise an
exception, so processing an inbound payload can raise an uncaught
exception. -/
theorem c2_counterexample :
    exceptIsError (wsOnMessage 0 "not json") = true := rfl

/-- C2 (amended): a payload that does not parse as JSON raises an uncaught
exception inside the message handler; the exception leaves Session Store
exactly as it was (no partial update) and every subsequent event is still
processed normally. -/
theorem c2_malformed_drop (now : Nat) (st : SessionState) (w : String)
    (rest : List (Nat × String)) (h : jsonParse w = none) :
    exceptIsError (wsOnMessage now w) = true ∧
    stepWire now st w = st ∧
    processWires st ((now, w) :: rest) = processWires st rest := by
  have h1 : wsOnMessage now w = .error .syntaxError := by
    simp [wsOnMessage, h]
  refine ⟨by simp [exceptIsError, h1], by simp [stepWire, h1], ?_⟩
  show processWires (stepWire now st w) rest = processWires st rest
  simp [stepWire, h1]

/-- C2 witness: the concrete payload "not json". -/
theorem c2_malformed_drop_witness :
    jsonParse "not json" = none ∧
    (exceptIsError (wsOnMessage 0 "not json") = true ∧
     stepWire 0 initialState "not json" = initialState ∧
     processWires initialState [(0, "not json")] = processWires initialState []) :=
  ⟨rfl, c2_malformed_drop 0 initialState "not json" [] rfl⟩

/-- C3: a "response" event carrying the chart string `s` stores the string
itself as `currentChart`; `ChartDisplay` returns nothing on any value whose
`chart_data` field is falsy, and a string has no `chart_data` field, so the
stored chart never renders. -/
theorem c3_stored_chart_never_renders (st : SessionState) (now : Nat)
    (t : JVal) (s : String) (v : JVal) (hs : s ≠ "")
    (hv : truthy (getFieldD v "chart_data") = false) :
    (stepData now st (respEvent t s)).currentChart = .jstr s ∧
    ChartDisplay (.jstr s) = none ∧
    ChartDisplay v = none := by
  refine ⟨by rw [stepData_respEvent now st t hs], ?_, ?_⟩
  · unfold ChartDisplay
    split
    · rfl
    · simp [getFieldD, truthy]
  · unfold ChartDisplay
    split
    · rfl
    · simp [hv]

/-- C3 witness: the decodable chart string "[]" is stored verbatim and
still renders nothing. -/
theorem c3_stored_chart_never_renders_witness :
    ("[]" : String) ≠ "" ∧
    truthy (getFieldD .jnull "chart_data") = false ∧
    ((stepData 7 initialState (respEvent (.jstr "here is your chart") "[]")).currentChart =
        .jstr "[]" ∧
      ChartDisplay (.jstr "[]") = none ∧
      ChartDisplay .jnull = none) :=
  ⟨by decide, rfl,
   c3_stored_chart_never_renders initialState 7 (.jstr "here is your chart")
     "[]" .jnull (by decide) rfl⟩

/-- C4 counterexample: the event carrying the undecodable chart payload
"not json" does change `currentChart` — it replaces the initial `null` with
the raw string — contradicting "currentChart ... exactly as before". -/
theorem c4_counterexample :
    decodeChart "not json" = none ∧
    (stepData 0 initialState (respEvent (.jstr "hi") "not json")).currentChart ≠
      initialState.currentChart := by
  refine ⟨rfl, ?_⟩
  rw [show (stepData 0 initialState
      (respEvent (.jstr "hi") "not json")).currentChart =
    .jstr "not json" from rfl]
  simp [initialState]

/-- C4 (amended): an inbound "response" event with an undecodable
`chart_data` appends the textual reply and leaves earlier messages intact,
but replaces `currentChart` with the raw undecodable string; the renderer
then renders nothing for it. -/
theorem c4_undecodable_chart (st : SessionState) (now : Nat) (t : JVal)
    (c : String) (hc : c ≠ "") (_hdec : decodeChart c = none) :
    (stepData now st (respEvent t c)).messages =
      st.messages ++ [mkMessage now "assistant" t] ∧
    (stepData now st (respEvent t c)).currentChart = .jstr c ∧
    ChartDisplay (.jstr c) = none := by
  rw [stepData_respEvent now st t hc]
  refine ⟨rfl, rfl, ?_⟩
  unfold ChartDisplay
  split
  · rfl
  · simp [getFieldD, truthy]

/-- C4 witness: the undecodable payload "not json". -/
theorem c4_undecodable_chart_witness :
    ("not json" : String) ≠ "" ∧ decodeChart "not json" = none ∧
    ((stepData 3 initialState (respEvent (.jstr "hi") "not json")).messages =
        initialState.messages ++ [mkMessage 3 "assistant" (.jstr "hi")] ∧
      (stepData 3 initialState (respEvent (.jstr "hi") "not json")).currentChart =
        .jstr "not json" ∧
      ChartDisplay (.jstr "not json") = none) :=
  ⟨by decide, rfl,
   c4_undecodable_chart initialState 3 (.jstr "hi") "not json" (by decide) rfl⟩

/-- C5: sending a chat message always appends exactly one user message
(leaving chart and file untouched), the append is the first step of the
handler's trace (it precedes any transmission attempt), and when the
channel is not open the handler performs no transmission and only logs —
the trace is total, no exception arises. -/
theorem c5_send_while_closed (now : Nat) (st : SessionState)
    (ws : Option ReadyState) (m : String) :
    ((stepUserSend now ws m st).messages =
        st.messages ++ [mkMessage now "user" (.jstr m)] ∧
      (stepUserSend now ws m st).currentChart = st.currentChart ∧
      (stepUserSend now ws m st).uploadedFile = st.uploadedFile ∧
      handleSendMessage now ws m =
        .append (mkMessage now "user" (.jstr m)) :: sendSteps ws m) ∧
    (ws ≠ some .OPEN →
      (handleSendMessage now ws m).filter isTransmit = [] ∧
      sendSteps ws m = [.logNotConnected]) := by
  constructor
  · refine ⟨?_, ?_, ?_, rfl⟩ <;>
      (cases ws with
       | none => rfl
       | some rs => cases rs <;> rfl)
  · intro h
    cases ws with
    | none => exact ⟨rfl, rfl⟩
    | some rs =>
      cases rs with
      | OPEN => exact absurd rfl h
      | CONNECTING => exact ⟨rfl, rfl⟩
      | CLOSING => exact ⟨rfl, rfl⟩
      | CLOSED => exact ⟨rfl, rfl⟩

/-- C5 witness: the spec scenario — channel closed, user sends
"plot monthly revenue". -/
theorem c5_send_while_closed_witness :
    (some ReadyState.CLOSED ≠ some ReadyState.OPEN) ∧
    ((handleSendMessage 5 (some .CLOSED) "plot monthly revenue").filter
        isTransmit = [] ∧
      sendSteps (some .CLOSED) "plot monthly revenue" = [.logNotConnected]) ∧
    (stepUserSend 5 (some .CLOSED) "plot monthly revenue" initialState).messages =
      [mkMessage 5 "user" (.jstr "plot monthly revenue")] :=
  ⟨by decide,
   (c5_send_while_closed 5 initialState (some .CLOSED) "plot monthly revenue").2
     (by decide),
   by
    rw [(c5_send_while_closed 5 initialState (some .CLOSED)
      "plot monthly revenue").1.1]
    rfl⟩

/-- The acknowledgement shape of a successful upload reply. -/
def uploadAck (r s : String) : JVal :=
  .jobj [("success", .jbool true), ("file_path", .jstr r),
         ("load_result", .jobj [("response", .jstr s)])]

/-- C6: a successful acknowledgement carrying file reference `r` and
summary `s` dispatches `setUploadedFile(r)` first and then appends exactly
one assistant message whose text contains `s`; the resulting state has
`uploadedFileRef = r` and the one new message. -/
theorem c6_upload_round_trip (now : Nat) (st : SessionState) (r s : String)
    (hs : s ≠ "") :
    customRequestRun now (.ok (uploadAck r s)) =
      ([.setFile (.jstr r),
        .appendMsg (mkMessage now "assistant"
          (.jstr ("文件上传成功！我已经加载了文件，其中包含 " ++ s ++
            "。你可以让我生成各种图表了。")))],
       [Notice.success "文件上传成功"]) ∧
    (customRequest now st (.ok (uploadAck r s))).1 =
      { st with
          uploadedFile := .jstr r,
          messages := st.messages ++ [mkMessage now "assistant"
            (.jstr ("文件上传成功！我已经加载了文件，其中包含 " ++ s ++
              "。你可以让我生成各种图表了。"))] } ∧
    (∃ pre post, ("文件上传成功！我已经加载了文件，其中包含 " ++ s ++
        "。你可以让我生成各种图表了。") = pre ++ s ++ post) := by
  have htext : uploadConfirmText (.jobj [("response", .jstr s)]) =
      "文件上传成功！我已经加载了文件，其中包含 " ++ s ++
        "。你可以让我生成各种图表了。" := by
    simp [uploadConfirmText, optChain, getFieldD, lookupField, jsOr, truthy,
      bne_iff_ne, hs, jsToString]
  have hrun : customRequestRun now (.ok (uploadAck r s)) =
      ([.setFile (.jstr r),
        .appendMsg (mkMessage now "assistant"
          (.jstr (uploadConfirmText (.jobj [("response", .jstr s)]))))],
       [Notice.success "文件上传成功"]) := rfl
  refine ⟨?_, ?_,
    ⟨"文件上传成功！我已经加载了文件，其中包含 ", "。你可以让我生成各种图表了。", rfl⟩⟩
  · rw [hrun, htext]
  · show applyMuts st (customRequestRun now (.ok (uploadAck r s))).1 = _
    rw [hrun, htext]
    rfl

/-- C6 witness: the spec scenario — `/tmp/sales.xlsx` with summary
"120 rows, 5 columns". -/
theorem c6_upload_round_trip_witness :
    ("120 rows, 5 columns" : String) ≠ "" ∧
    (customRequest 9 initialState
        (.ok (uploadAck "/tmp/sales.xlsx" "120 rows, 5 columns"))).1.uploadedFile =
      .jstr "/tmp/sales.xlsx" ∧
    (customRequest 9 initialState
        (.ok (uploadAck "/tmp/sales.xlsx" "120 rows, 5 columns"))).1.messages =
      [mkMessage 9 "assistant"
        (.jstr ("文件上传成功！我已经加载了文件，其中包含 " ++ "120 rows, 5 columns" ++
          "。你可以让我生成各种图表了。"))] := by
  refine ⟨by decide, ?_, ?_⟩
  · rw [(c6_upload_round_trip 9 initialState "/tmp/sales.xlsx"
      "120 rows, 5 columns" (by decide)).2.1]
  · rw [(c6_upload_round_trip 9 initialState "/tmp/sales.xlsx"
      "120 rows, 5 columns" (by decide)).2.1]
    rfl

/-- C7: each of two successive "response" events carrying chart payloads
replaces `currentChart` wholesale; after both, it equals the second payload
only. -/
theorem c7_chart_replace (st : SessionState) (n1 n2 : Nat) (t1 t2 : JVal)
    (c1 c2 : String) (h1 : c1 ≠ "") (h2 : c2 ≠ "") :
    (stepData n1 st (respEvent t1 c1)).currentChart = .jstr c1 ∧
    (stepData n2 (stepData n1 st (respEvent t1 c1))
        (respEvent t2 c2)).currentChart = .jstr c2 := by
  rw [stepData_respEvent n1 st t1 h1, stepData_respEvent n2 _ t2 h2]
  exact ⟨rfl, rfl⟩

/-- C7 witness: two concrete chart payloads. -/
theorem c7_chart_replace_witness :
    ("[1]" : String) ≠ "" ∧ ("[2]" : String) ≠ "" ∧
    ((stepData 1 initialState (respEvent (.jstr "first") "[1]")).currentChart =
        .jstr "[1]" ∧
      (stepData 2 (stepData 1 initialState (respEvent (.jstr "first") "[1]"))
          (respEvent (.jstr "second") "[2]")).currentChart = .jstr "[2]") :=
  ⟨by decide, by decide,
   c7_chart_replace initialState 1 2 (.jstr "first") (.jstr "second")
     "[1]" "[2]" (by decide) (by decide)⟩

/-- C8: when the upload fails — the request rejects, or the server reply
does not carry a truthy success flag — the session state is unchanged (no
message appended, file reference and chart untouched) and the only surfaced
effect is a single transient error notification. -/
theorem c8_upload_failure (now : Nat) (st : SessionState)
    (res : Except UploadError JVal) (h : uploadSucceeded res = false) :
    (customRequest now st res).1 = st ∧
    ∃ m, (customRequest now st res).2 = [Notice.error m] := by
  cases res with
  | error e => exact ⟨rfl, "上传失败", rfl⟩
  | ok v =>
    cases v with
    | undefined => exact ⟨rfl, "上传失败", rfl⟩
    | jnull => exact ⟨rfl, "上传失败", rfl⟩
    | jbool b => exact ⟨rfl, jsToString (getFieldD (.jbool b) "message"), rfl⟩
    | jnum n => exact ⟨rfl, jsToString (getFieldD (.jnum n) "message"), rfl⟩
    | jstr s => exact ⟨rfl, jsToString (getFieldD (.jstr s) "message"), rfl⟩
    | jarr xs => exact ⟨rfl, jsToString (getFieldD (.jarr xs) "message"), rfl⟩
    | jobj fs =>
      have hs : truthy (lookupField fs "success") = false := by
        simpa [uploadSucceeded, getFieldD] using h
      constructor
      · show applyMuts st (customRequestRun now (.ok (.jobj fs))).1 = st
        simp [customRequestRun, getField, hs, applyMuts]
      · refine ⟨jsToString (lookupField fs "message"), ?_⟩
        show (customRequestRun now (.ok (.jobj fs))).2 = _
        simp [customRequestRun, getField, hs]

/-- C8 witness: a rejected upload request. -/
theorem c8_upload_failure_witness :
    uploadSucceeded (.error { msg := "ECONNREFUSED" }) = false ∧
    ((customRequest 4 initialState (.error { msg := "ECONNREFUSED" })).1 =
        initialState ∧
      ∃ m, (customRequest 4 initialState
        (.error { msg := "ECONNREFUSED" })).2 = [Notice.error m]) :=
  ⟨rfl, c8_upload_failure 4 initialState (.error { msg := "ECONNREFUSED" }) rfl⟩
